import Mathlib

/-!
# Verification of the Restmage price-prediction engine

Shallow embedding of `backend/app/services/ml_service.py` (class `MLService`)
together with the boundary schema facts of
`backend/app/schemas/prediction.py` that the claims rely on.

Modelling conventions:
* Python numbers are embedded as `ℚ` (for the real-valued `area` and the
  raw running price) and `ℤ` (for the integer-typed fields
  `bedrooms`, `bathrooms`, `floors`, `yearBuilt`, `age` — the Pydantic
  schema types them `int`).  Python's `round` (banker's rounding,
  half-to-even) is embedded as `pyRound : ℚ → ℤ`.
* A feature dictionary is embedded as a structure of `Option` fields, one
  per key the service reads; `none` means the key is absent (or `None`,
  which the service treats identically on every reachable path).  The
  service reads both lowercase keys and their capitalized legacy variants
  (`area` / `Area`, ...), so both appear as fields.
* Python's `x or y` on numbers/strings falls through on falsy values
  (`None`, `0`, `""`, `False`); the helpers `numOr`/`intOr`/`strOr`
  embed exactly that.
* The learned-model artifact is opaque in the source (`self.model`), so it
  is embedded as an optional function `FeatureRecord → Except String ℚ`;
  `Except.error` stands for a raised exception inside the `try` block.
* `timestamp`, `currency` and `disclaimer` fields of the responses are
  constants irrelevant to every claim and are omitted from the embedded
  result records; `datetime.now().year`, read by `predict_heuristic`, is
  passed explicitly as a `year : ℤ` parameter.
-/

/-- Python's built-in `round` on a rational: round half to even. -/
def pyRound (q : ℚ) : ℤ :=
  if 2 * (q - ⌊q⌋) < 1 then ⌊q⌋
  else if 1 < 2 * (q - ⌊q⌋) then ⌊q⌋ + 1
  else if ⌊q⌋ % 2 = 0 then ⌊q⌋ else ⌊q⌋ + 1

/-- Value of the `garage` key: the schema allows a boolean or a string. -/
inductive GarageVal where
  | bool (b : Bool)
  | str (s : String)
deriving DecidableEq, Repr

/-- A feature dictionary as read by `MLService`.  One `Option` field per
key the service accesses; `none` = key absent.  The service reads each
lowercase key and, as a fallback, its capitalized variant (`Area`,
`Bedrooms`, ...), hence the `...Cap` fields. -/
structure FeatureRecord where
  area : Option ℚ := none
  areaCap : Option ℚ := none
  bedrooms : Option ℤ := none
  bedroomsCap : Option ℤ := none
  bathrooms : Option ℤ := none
  bathroomsCap : Option ℤ := none
  floors : Option ℤ := none
  floorsCap : Option ℤ := none
  yearBuilt : Option ℤ := none
  yearBuiltCap : Option ℤ := none
  age : Option ℤ := none
  location : Option String := none
  locationCap : Option String := none
  condition : Option String := none
  conditionCap : Option String := none
  garage : Option GarageVal := none
  garageCap : Option GarageVal := none
  amenities : List String := []
deriving DecidableEq, Repr

namespace MLService

/-- `features.get(k1) or features.get(k2, d)` for a rational-valued key:
Python `or` falls through when the first operand is `None` or `0`. -/
def numOr (a b : Option ℚ) (d : ℚ) : ℚ :=
  match a with
  | some v => if v = 0 then b.getD d else v
  | none => b.getD d

/-- `features.get(k1) or features.get(k2, d)` for an integer-valued key. -/
def intOr (a b : Option ℤ) (d : ℤ) : ℤ :=
  match a with
  | some v => if v = 0 then b.getD d else v
  | none => b.getD d

/-- `features.get(k1) or features.get(k2, d)` for a string-valued key:
the empty string is falsy. -/
def strOr (a b : Option String) (d : String) : String :=
  match a with
  | some v => if v = "" then b.getD d else v
  | none => b.getD d

/- `PRICE_MODEL` — the fixed coefficient table of the heuristic model. -/

def basePrice : ℤ := 50000
def areaPerSqFt : ℤ := 100
def bedroomsCoef : ℤ := 15000
def bathroomsCoef : ℤ := 10000
def ageCoef : ℤ := -2000

def locationTable (s : String) : Option ℤ :=
  if s = "urban" then some 50000
  else if s = "suburban" then some 30000
  else if s = "rural" then some 10000
  else none

def conditionTable (s : String) : Option ℤ :=
  if s = "excellent" then some 40000
  else if s = "good" then some 20000
  else if s = "fair" then some 0
  else if s = "poor" then some (-20000)
  else none

def amenitiesTable (s : String) : Option ℤ :=
  if s = "garage" then some 15000
  else if s = "garden" then some 10000
  else if s = "pool" then some 25000
  else if s = "basement" then some 20000
  else if s = "balcony" then some 8000
  else none

/- Field normalization in `predict_heuristic` (lines 186-200). -/

def getArea (f : FeatureRecord) : ℚ := numOr f.area f.areaCap 0
def getBedrooms (f : FeatureRecord) : ℤ := intOr f.bedrooms f.bedroomsCap 0
def getBathrooms (f : FeatureRecord) : ℤ := intOr f.bathrooms f.bathroomsCap 0
def getFloors (f : FeatureRecord) : ℤ := intOr f.floors f.floorsCap 1

/-- `features.get('yearBuilt') or features.get('YearBuilt')` — no default,
so the result is still optional (and `some 0` remains falsy downstream). -/
def getYearBuilt (f : FeatureRecord) : Option ℤ :=
  match f.yearBuilt with
  | some v => if v = 0 then f.yearBuiltCap else some v
  | none => f.yearBuiltCap

/-- Age determination: `if year_built: age = current_year - year_built
elif 'age' in features: age = features['age']` (starting from `age = 0`). -/
def ageOf (year : ℤ) (f : FeatureRecord) : ℤ :=
  match getYearBuilt f with
  | some yb => if yb = 0 then f.age.getD 0 else year - yb
  | none => f.age.getD 0

def getLocation (f : FeatureRecord) : String :=
  (strOr f.location f.locationCap "").toLower

def getCondition (f : FeatureRecord) : String :=
  (strOr f.condition f.conditionCap "").toLower

/- Garage handling (lines 212-225). -/

/-- Falsy garage values: `False` and the empty string. -/
def garageFalsy : GarageVal → Bool
  | .bool b => !b
  | .str s => s = ""

/-- `features.get('garage') or features.get('Garage')`. -/
def getGarage (f : FeatureRecord) : Option GarageVal :=
  match f.garage with
  | some g => if garageFalsy g then f.garageCap else some g
  | none => f.garageCap

/-- `garage.lower() in ['yes', 'true', '1']`. -/
def truthyGarageStr (s : String) : Bool :=
  s.toLower = "yes" || s.toLower = "true" || s.toLower = "1"

/-- `has_garage` before the amenities check. -/
def hasGarageField (f : FeatureRecord) : Bool :=
  match getGarage f with
  | some (.bool b) => b
  | some (.str s) => truthyGarageStr s
  | none => false

/-- `has_garage` after the amenities check:
`if not has_garage and amenities: has_garage = any(str(a).lower() == 'garage' ...)`. -/
def hasGarage (f : FeatureRecord) : Bool :=
  if !hasGarageField f && !f.amenities.isEmpty then
    f.amenities.any fun a => a.toLower = "garage"
  else hasGarageField f

/- Contributions (lines 203-233). -/

def areaContrib (f : FeatureRecord) : ℚ := getArea f * (areaPerSqFt : ℚ)
def bedroomContrib (f : FeatureRecord) : ℤ := getBedrooms f * bedroomsCoef
def bathroomContrib (f : FeatureRecord) : ℤ := getBathrooms f * bathroomsCoef
/-- `(floors - 1) * (15000 * 0.5)` — a Python float, hence `ℚ` here. -/
def floorContrib (f : FeatureRecord) : ℚ :=
  ((getFloors f : ℚ) - 1) * ((bedroomsCoef : ℚ) * (1 / 2))
def ageAdjustment (year : ℤ) (f : FeatureRecord) : ℤ := ageOf year f * ageCoef
def locationPremium (f : FeatureRecord) : ℤ := (locationTable (getLocation f)).getD 0
def conditionAdjustment (f : FeatureRecord) : ℤ := (conditionTable (getCondition f)).getD 0
def garageContribution (f : FeatureRecord) : ℤ :=
  if hasGarage f then (amenitiesTable "garage").getD 0 else 0

/-- Per-amenity value inside the `other_amenities_contrib` loop:
`garage` is skipped ("Avoid double counting"), unknown names give 0. -/
def amenityValue (a : String) : ℤ :=
  if a.toLower = "garage" then 0 else (amenitiesTable a.toLower).getD 0

/-- `other_amenities_contrib` — the `if amenities:` guard is kept even
though the empty sum is 0 anyway. -/
def otherAmenitiesContrib (f : FeatureRecord) : ℤ :=
  if f.amenities.isEmpty then 0 else (f.amenities.map amenityValue).sum

/-- The raw (un-rounded) price accumulated in `price` (lines 182, 236-238). -/
def rawPrice (year : ℤ) (f : FeatureRecord) : ℚ :=
  (basePrice : ℚ) +
    (areaContrib f + (bedroomContrib f : ℚ) + (bathroomContrib f : ℚ) +
      floorContrib f + (ageAdjustment year f : ℚ) + (locationPremium f : ℚ) +
      (conditionAdjustment f : ℚ) + (garageContribution f : ℚ) +
      (otherAmenitiesContrib f : ℚ))

structure PriceRange where
  min : ℤ
  max : ℤ
deriving DecidableEq, Repr

/-- The `breakdown` dict of the heuristic path, with its exact keys. -/
structure Breakdown where
  basePrice : ℤ
  areaContribution : ℤ
  bedroomContribution : ℤ
  bathroomContribution : ℤ
  floorsContribution : ℤ
  ageAdjustment : ℤ
  locationPremium : ℤ
  conditionAdjustment : ℤ
  garageContribution : ℤ
  otherAmenitiesContribution : ℤ
deriving DecidableEq, Repr

/-- `sum(breakdown.values())` over the ten keys. -/
def Breakdown.total (b : Breakdown) : ℤ :=
  b.basePrice + b.areaContribution + b.bedroomContribution +
    b.bathroomContribution + b.floorsContribution + b.ageAdjustment +
    b.locationPremium + b.conditionAdjustment + b.garageContribution +
    b.otherAmenitiesContribution

/-- A prediction result.  `breakdown` is `none` on the learned-model path
(the source returns an empty dict there) and `some` on the heuristic path. -/
structure PredictionResult where
  estimatedPrice : ℤ
  priceRange : PriceRange
  confidence : ℚ
  breakdown : Option Breakdown
deriving DecidableEq, Repr

/-- `predict_heuristic` (lines 172-264). -/
def predictHeuristic (year : ℤ) (f : FeatureRecord) : PredictionResult :=
  let price := rawPrice year f
  let marketVariance := price * (1 / 10)
  { estimatedPrice := pyRound price
    priceRange :=
      { min := pyRound (max 0 (price - marketVariance))
        max := pyRound (price + marketVariance) }
    confidence := 85 / 100
    breakdown := some
      { basePrice := basePrice
        areaContribution := pyRound (areaContrib f)
        bedroomContribution := pyRound ((bedroomContrib f : ℚ))
        bathroomContribution := pyRound ((bathroomContrib f : ℚ))
        floorsContribution := pyRound (floorContrib f)
        ageAdjustment := pyRound ((ageAdjustment year f : ℚ))
        locationPremium := locationPremium f
        conditionAdjustment := conditionAdjustment f
        garageContribution := garageContribution f
        otherAmenitiesContribution := pyRound ((otherAmenitiesContrib f : ℚ)) } }

/-- The mutable model state of the service: `self.model_loaded` and the
opaque artifact `self.model`.  Applying the artifact to a record stands
for preprocessing the single-row frame and calling `model.predict`;
`Except.error` stands for any exception raised inside the `try`. -/
structure MLState where
  modelLoaded : Bool
  model : Option (FeatureRecord → Except String ℚ)

/-- `predict_ml` (lines 149-170): `None` unless the model is loaded and
the prediction call succeeds; every exception is caught and turned into
`None`. -/
def predictML (st : MLState) (f : FeatureRecord) : Option ℚ :=
  if !st.modelLoaded then none
  else
    match st.model with
    | none => none
    | some g =>
      match g f with
      | Except.ok v => some v
      | Except.error _ => none

/-- The learned-path result shape built inline in `predict` (lines 283-291). -/
def mlResult (m : ℚ) : PredictionResult :=
  { estimatedPrice := pyRound m
    priceRange :=
      { min := pyRound (m * (95 / 100))
        max := pyRound (m * (105 / 100)) }
    confidence := 90 / 100
    breakdown := none }

/-- A `predict` response (minus the constant `currency`/`timestamp`/
`disclaimer` fields). -/
structure PredictResponse where
  success : Bool
  prediction : PredictionResult
  modelUsed : String
deriving DecidableEq, Repr

/-- `predict` (lines 266-302): try the learned model first, else fall
back to the heuristic. -/
def predict (year : ℤ) (st : MLState) (f : FeatureRecord) : PredictResponse :=
  match predictML st f with
  | some m => { success := true, prediction := mlResult m, modelUsed := "ml_model" }
  | none => { success := true, prediction := predictHeuristic year f, modelUsed := "heuristic" }

structure BatchItem where
  propertyId : ℤ
  features : FeatureRecord
  prediction : PredictionResult
deriving DecidableEq, Repr

structure BatchResponse where
  success : Bool
  modelUsed : String
  predictions : List BatchItem
deriving DecidableEq, Repr

/-- The single vectorized pass `self.model.predict(X)` over the stacked
batch: the regression artifact yields one scalar per row, and a failure
anywhere aborts the whole pass (the `except` block discards everything). -/
def runRows (g : FeatureRecord → Except String ℚ) :
    List FeatureRecord → Except String (List ℚ)
  | [] => Except.ok []
  | p :: ps =>
    match g p with
    | Except.error e => Except.error e
    | Except.ok v =>
      match runRows g ps with
      | Except.error e => Except.error e
      | Except.ok vs => Except.ok (v :: vs)

/-- The guarded vectorized attempt of `batch_predict` (lines 323-354):
`None` when the model is not loaded or the pass raised. -/
def mlBatchPass (st : MLState) (props : List FeatureRecord) : Option (List ℚ) :=
  if !st.modelLoaded then none
  else
    match st.model with
    | none => none
    | some g =>
      match runRows g props with
      | Except.ok vs => some vs
      | Except.error _ => none

/-- `batch_predict` (lines 304-371).  The empty batch returns the
`success
: False` error dict, embedded as `Except.error`. -/
def batchPredict (year : ℤ) (st : MLState) (props : List FeatureRecord) :
    Except String BatchResponse :=
  if props.isEmpty then Except.error "No properties provided for prediction"
  else
    match mlBatchPass st props with
    | some preds =>
      Except.ok
        { success := true
          modelUsed := "ml_model"
          predictions :=
            (props.zip preds).enum.map fun p =>
              { propertyId := (p.1 : ℤ) + 1
                features := p.2.1
                prediction := mlResult p.2.2 } }
    | none =>
      Except.ok
        { success := true
          modelUsed := "heuristic"
          predictions :=
            props.enum.map fun p =>
              { propertyId := (p.1 : ℤ) + 1
                features := p.2
                prediction := predictHeuristic year p.2 } }

/- `preprocess_features` (lines 110-147), categorical encoding step.  The
encoder artifact is opaque (`self.encoders[col].transform`); it is
embedded as a fallible map from the raw column value to an ordinal code. -/

/-- One column of the label-encoding loop: on any encoder exception the
column is set to `0` ("Use first category as default"). -/
def encodeColumn (enc : String → Except String ℤ) (v : String) : ℤ :=
  match enc v with
  | Except.ok c => c
  | Except.error _ => 0

end MLService

namespace MLService

/-- The integer-valued part of `rawPrice`: every contribution except the
real-valued `areaContrib` (the floors term `(floors-1)*7500.0` is a float
in the source but always integer-valued). -/
def intContrib (year : ℤ) (f : FeatureRecord) : ℤ :=
  basePrice + bedroomContrib f + bathroomContrib f + (getFloors f - 1) * 7500 +
    ageAdjustment year f + locationPremium f + conditionAdjustment f +
    garageContribution f + otherAmenitiesContrib f

/-- `rawPrice` with the location premium split off. -/
def rawPriceSansLoc (year : ℤ) (f : FeatureRecord) : ℚ :=
  (basePrice : ℚ) + (areaContrib f + (bedroomContrib f : ℚ) +
    (bathroomContrib f : ℚ) + floorContrib f + (ageAdjustment year f : ℚ) +
    (conditionAdjustment f : ℚ) + (garageContribution f : ℚ) +
    (otherAmenitiesContrib f : ℚ))

/-- `rawPrice` with the condition adjustment split off. -/
def rawPriceSansCond (year : ℤ) (f : FeatureRecord) : ℚ :=
  (basePrice : ℚ) + (areaContrib f + (bedroomContrib f : ℚ) +
    (bathroomContrib f : ℚ) + floorContrib f + (ageAdjustment year f : ℚ) +
    (locationPremium f : ℚ) + (garageContribution f : ℚ) +
    (otherAmenitiesContrib f : ℚ))

/- Concrete states and records used as witnesses and counterexamples. -/

/-- Service state with no artifact on disk (`model_loaded = False`). -/
def stNone : MLState := { modelLoaded := false, model := none }

/-- Service state whose loaded artifact raises on every prediction call. -/
def stFail : MLState :=
  { modelLoaded := true, model := some fun _ => Except.error "shape mismatch" }

/-- Service state whose loaded artifact returns a constant estimate. -/
def stConst (v : ℚ) : MLState :=
  { modelLoaded := true, model := some fun _ => Except.ok v }

/-- A representative valid record (the spec's own example, with an
explicit age so the result does not depend on the calendar year). -/
def recSample : FeatureRecord :=
  { area := some 2000, bedrooms := some 3, bathrooms := some 2,
    floors := some 2, age := some 10, location := some "Urban",
    condition := some "Good", garage := some (.bool true),
    amenities := ["garden"] }

/-- A schema-valid record whose raw heuristic price is exactly 0:
`50000 + 20*100 + 26*(-2000) = 0`. -/
def recZero : FeatureRecord :=
  { area := some 20, bedrooms := some 0, bathrooms := some 0,
    floors := some 1, age := some 26 }

/-- A record that supplies `yearBuilt`, so its heuristic estimate reads
the clock. -/
def recYearBuilt : FeatureRecord := { area := some 100, yearBuilt := some 2020 }

/-- A record with one priced amenity. -/
def recPool : FeatureRecord := { area := some 100, amenities := ["pool"] }

/-- `recPool` with the amenity entry duplicated. -/
def recPoolTwice : FeatureRecord :=
  { area := some 100, amenities := ["pool", "pool"] }

/-- A record supplying both a (zero) `yearBuilt` and an explicit `age`. -/
def recYearBuiltZero : FeatureRecord :=
  { area := some 100, yearBuilt := some 0, age := some 5 }

/-- A record with out-of-vocabulary categorical values. -/
def recMars : FeatureRecord :=
  { area := some 1000, bedrooms := some 2, bathrooms := some 1,
    age := some 5, location := some "Mars", condition := some "Shiny" }

/-- An encoder artifact that raises on every value (as a scikit-learn
label encoder does on an unseen label). -/
def encFail : String → Except String ℤ := fun _ => Except.error "unseen label"

end MLService
theorem pyRound_intCast (n : ℤ) : pyRound (n : ℚ) = n := by
  simp [pyRound]

/-- Shifting by an even integer commutes with half-to-even rounding. -/
theorem pyRound_add_even (q : ℚ) (n : ℤ) (hn : n % 2 = 0) :
    pyRound (q + n) = pyRound q + n := by
  unfold pyRound
  have hf : ⌊q + (n : ℚ)⌋ = ⌊q⌋ + n := Int.floor_add_int q n
  have harg : 2 * (q + (n : ℚ) - (⌊q + (n : ℚ)⌋ : ℚ)) = 2 * (q - (⌊q⌋ : ℚ)) := by
    rw [hf]
    push_cast
    ring
  rw [harg, hf]
  have hpar : (⌊q⌋ + n) % 2 = ⌊q⌋ % 2 := by omega
  rw [hpar]
  split_ifs <;> omega

theorem pyRound_le (q : ℚ) : (pyRound q : ℚ) ≤ q + 1 / 2 := by
  unfold pyRound
  have hfl : (⌊q⌋ : ℚ) ≤ q := Int.floor_le q
  have hfu : q < (⌊q⌋ : ℚ) + 1 := Int.lt_floor_add_one q
  by_cases h1 : 2 * (q - (⌊q⌋ : ℚ)) < 1
  · simp only [h1, if_true]
    linarith
  · by_cases h2 : (1 : ℚ) < 2 * (q - (⌊q⌋ : ℚ))
    · simp only [h1, if_false, h2, if_true]
      push_cast
      linarith
    · by_cases h3 : ⌊q⌋ % 2 = 0 <;> simp only [h1, if_false, h2, h3, if_true] <;>
        push_cast <;> linarith

theorem le_pyRound (q : ℚ) : q - 1 / 2 ≤ (pyRound q : ℚ) := by
  unfold pyRound
  have hfl : (⌊q⌋ : ℚ) ≤ q := Int.floor_le q
  have hfu : q < (⌊q⌋ : ℚ) + 1 := Int.lt_floor_add_one q
  by_cases h1 : 2 * (q - (⌊q⌋ : ℚ)) < 1
  · simp only [h1, if_true]
    linarith
  · by_cases h2 : (1 : ℚ) < 2 * (q - (⌊q⌋ : ℚ))
    · simp only [h1, if_false, h2, if_true]
      push_cast
      linarith
    · by_cases h3 : ⌊q⌋ % 2 = 0 <;> simp only [h1, if_false, h2, h3, if_true] <;>
        push_cast <;> linarith

example : pyRound (5 : ℚ) = 5 := by with_unfolding_all decide
example : pyRound ((7 : ℚ) / 2) = 4 := by with_unfolding_all decide
example : pyRound ((5 : ℚ) / 2) = 2 := by with_unfolding_all decide
example : pyRound ((9 : ℚ) / 10) = 1 := by with_unfolding_all decide
example : pyRound (-(5 : ℚ) / 2) = -2 := by with_unfolding_all decide


namespace MLService

/- Parity facts: every integer contribution of the coefficient table is
even, so half-to-even rounding commutes with adding it (`pyRound_add_even`). -/

theorem dvd_two_locationPremium (f : FeatureRecord) : 2 ∣ locationPremium f := by
  unfold locationPremium locationTable
  split_ifs <;> simp <;> norm_num

theorem dvd_two_conditionAdjustment (f : FeatureRecord) :
    2 ∣ conditionAdjustment f := by
  unfold conditionAdjustment conditionTable
  split_ifs <;> simp <;> norm_num

theorem dvd_two_amenityValue (a : String) : 2 ∣ amenityValue a := by
  unfold amenityValue amenitiesTable
  split_ifs <;> simp <;> norm_num

theorem dvd_two_otherAmenitiesContrib (f : FeatureRecord) :
    2 ∣ otherAmenitiesContrib f := by
  unfold otherAmenitiesContrib
  split_ifs
  · norm_num
  · refine List.dvd_sum ?_
    intro x hx
    rcases List.mem_map.mp hx with ⟨a, _, rfl⟩
    exact dvd_two_amenityValue a

theorem dvd_two_garageContribution (f : FeatureRecord) :
    2 ∣ garageContribution f := by
  unfold garageContribution
  split_ifs <;> norm_num [amenitiesTable]

theorem dvd_two_intContrib (year : ℤ) (f : FeatureRecord) :
    2 ∣ intContrib year f := by
  unfold intContrib basePrice bedroomContrib bathroomContrib ageAdjustment
    bedroomsCoef bathroomsCoef ageCoef
  have h1 : (2 : ℤ) ∣ getBedrooms f * 15000 := ⟨getBedrooms f * 7500, by ring⟩
  have h2 : (2 : ℤ) ∣ getBathrooms f * 10000 := ⟨getBathrooms f * 5000, by ring⟩
  have h3 : (2 : ℤ) ∣ (getFloors f - 1) * 7500 := ⟨(getFloors f - 1) * 3750, by ring⟩
  have h4 : (2 : ℤ) ∣ ageOf year f * -2000 := ⟨ageOf year f * -1000, by ring⟩
  have h5 := dvd_two_locationPremium f
  have h6 := dvd_two_conditionAdjustment f
  have h7 := dvd_two_garageContribution f
  have h8 := dvd_two_otherAmenitiesContrib f
  omega

theorem intContrib_emod (year : ℤ) (f : FeatureRecord) :
    intContrib year f % 2 = 0 :=
  Int.emod_eq_zero_of_dvd (dvd_two_intContrib year f)

theorem floorContrib_eq_intCast (f : FeatureRecord) :
    floorContrib f = (((getFloors f - 1) * 7500 : ℤ) : ℚ) := by
  unfold floorContrib bedroomsCoef
  push_cast
  ring

theorem rawPrice_eq_area_add_intContrib (year : ℤ) (f : FeatureRecord) :
    rawPrice year f = areaContrib f + (intContrib year f : ℚ) := by
  unfold rawPrice intContrib
  rw [floorContrib_eq_intCast]
  push_cast
  ring

theorem predictHeuristic_estimatedPrice (year : ℤ) (f : FeatureRecord) :
    (predictHeuristic year f).estimatedPrice =
      pyRound (areaContrib f) + intContrib year f := by
  show pyRound (rawPrice year f) = _
  rw [rawPrice_eq_area_add_intContrib]
  exact pyRound_add_even _ _ (intContrib_emod year f)

theorem predictHeuristic_breakdown_total (year : ℤ) (f : FeatureRecord) :
    ∃ b, (predictHeuristic year f).breakdown = some b ∧
      b.total = pyRound (areaContrib f) + intContrib year f := by
  refine ⟨_, rfl, ?_⟩
  unfold Breakdown.total intContrib
  simp only [pyRound_intCast, floorContrib_eq_intCast]
  ring

/-- C1 (amended): on the heuristic path, `estimatedPrice` equals the sum
of all ten values of the returned breakdown map — the map already
contains `basePrice` as one of its entries, so the claimed identity
`estimatedPrice = basePrice + sum(breakdown.values())` double-counts it. -/
theorem heuristic_price_reconciles_breakdown (year : ℤ) (st : MLState)
    (f : FeatureRecord) (h : (predict year st f).modelUsed = "heuristic") :
    ∃ b, (predict year st f).prediction.breakdown = some b ∧
      (predict year st f).prediction.estimatedPrice = b.total := by
  cases hml : predictML st f with
  | some m =>
    unfold predict at h
    rw [hml] at h
    simp at h
  | none =>
    unfold predict at h ⊢
    rw [hml] at h ⊢
    obtain ⟨b, hb, htot⟩ := predictHeuristic_breakdown_total year f
    exact ⟨b, hb, by rw [htot, predictHeuristic_estimatedPrice]⟩

/-- Witness for C1's theorem at a concrete valid record. -/
theorem heuristic_price_reconciles_breakdown_witness :
    (predict 2025 stNone recSample).modelUsed = "heuristic" ∧
    ∃ b, (predict 2025 stNone recSample).prediction.breakdown = some b ∧
      (predict 2025 stNone recSample).prediction.estimatedPrice = b.total :=
  ⟨by with_unfolding_all decide,
    heuristic_price_reconciles_breakdown 2025 stNone recSample
      (by with_unfolding_all decide)⟩

/-- C1 counterexample: for the spec's own example record (served by the
heuristic path), `basePrice + sum(breakdown.values())` is *not* the
estimated price — the breakdown already contains `basePrice`. -/
theorem heuristic_price_base_double_count :
    (predict 2025 stNone recSample).modelUsed = "heuristic" ∧
    (predict 2025 stNone recSample).prediction.breakdown.map
        (fun b => (basePrice + b.total : ℤ)) ≠
      some (predict 2025 stNone recSample).prediction.estimatedPrice := by
  with_unfolding_all decide

end MLService

namespace MLService

/-- C3 counterexample: `recZero` is schema-valid (positive area, integer
age) yet its raw heuristic price is exactly 0, so min = estimated = max
= 0 and the claimed strict inequalities fail. -/
theorem priceRange_not_strict_at_zero :
    ¬ ((predictHeuristic 2025 recZero).priceRange.min <
          (predictHeuristic 2025 recZero).estimatedPrice ∧
        (predictHeuristic 2025 recZero).estimatedPrice <
          (predictHeuristic 2025 recZero).priceRange.max) := by
  with_unfolding_all decide

/-- C3 (amended): the heuristic range is `round(price ± 10%)` with the
minimum floored at 0 and the learned range is `round(estimate ± 5%)`
exactly as built in the source, and the strict sandwich
`min < estimatedPrice < max` holds whenever the raw heuristic price
exceeds 10 (resp. the learned point estimate exceeds 20) — in
particular for every realistic record; it can fail for degenerate
records whose raw price is near or below zero. -/
theorem priceRange_bounds (year : ℤ) (f : FeatureRecord) (m : ℚ) :
    ((predictHeuristic year f).priceRange.min =
        pyRound (max 0 (rawPrice year f - rawPrice year f * (1 / 10))) ∧
      (predictHeuristic year f).priceRange.max =
        pyRound (rawPrice year f + rawPrice year f * (1 / 10))) ∧
    (10 < rawPrice year f →
      (predictHeuristic year f).priceRange.min <
          (predictHeuristic year f).estimatedPrice ∧
        (predictHeuristic year f).estimatedPrice <
          (predictHeuristic year f).priceRange.max) ∧
    ((mlResult m).priceRange.min = pyRound (m * (95 / 100)) ∧
      (mlResult m).priceRange.max = pyRound (m * (105 / 100))) ∧
    (20 < m →
      (mlResult m).priceRange.min < (mlResult m).estimatedPrice ∧
        (mlResult m).estimatedPrice < (mlResult m).priceRange.max) := by
  refine ⟨⟨rfl, rfl⟩, ?_, ⟨rfl, rfl⟩, ?_⟩
  · intro hp
    have hval : max 0 (rawPrice year f - rawPrice year f * (1 / 10)) =
        rawPrice year f * (9 / 10) := by
      rw [max_eq_right (by linarith)]
      ring
    constructor
    · show pyRound (max 0 (rawPrice year f - rawPrice year f * (1 / 10))) <
        pyRound (rawPrice year f)
      rw [hval]
      have h1 := pyRound_le (rawPrice year f * (9 / 10))
      have h2 := le_pyRound (rawPrice year f)
      have : (pyRound (rawPrice year f * (9 / 10)) : ℚ) <
          (pyRound (rawPrice year f) : ℚ) := by linarith
      exact_mod_cast this
    · show pyRound (rawPrice year f) <
        pyRound (rawPrice year f + rawPrice year f * (1 / 10))
      have h1 := pyRound_le (rawPrice year f)
      have h2 := le_pyRound (rawPrice year f + rawPrice year f * (1 / 10))
      have : (pyRound (rawPrice year f) : ℚ) <
          (pyRound (rawPrice year f + rawPrice year f * (1 / 10)) : ℚ) := by
        linarith
      exact_mod_cast this
  · intro hm
    constructor
    · show pyRound (m * (95 / 100)) < pyRound m
      have h1 := pyRound_le (m * (95 / 100))
      have h2 := le_pyRound m
      have : (pyRound (m * (95 / 100)) : ℚ) < (pyRound m : ℚ) := by linarith
      exact_mod_cast this
    · show pyRound m < pyRound (m * (105 / 100))
      have h1 := pyRound_le m
      have h2 := le_pyRound (m * (105 / 100))
      have : (pyRound m : ℚ) < (pyRound (m * (105 / 100)) : ℚ) := by linarith
      exact_mod_cast this

/-- Witness for C3's theorem: the sandwich holds at the sample record
(raw price 397500 > 10) and at a learned estimate of 100 > 20. -/
theorem priceRange_bounds_witness :
    10 < rawPrice 2025 recSample ∧ (20 : ℚ) < 100 ∧
    ((predictHeuristic 2025 recSample).priceRange.min <
        (predictHeuristic 2025 recSample).estimatedPrice ∧
      (predictHeuristic 2025 recSample).estimatedPrice <
        (predictHeuristic 2025 recSample).priceRange.max) ∧
    ((mlResult 100).priceRange.min < (mlResult 100).estimatedPrice ∧
      (mlResult 100).estimatedPrice < (mlResult 100).priceRange.max) :=
  ⟨by with_unfolding_all decide, by norm_num,
    (priceRange_bounds 2025 recSample 100).2.1 (by with_unfolding_all decide),
    (priceRange_bounds 2025 recSample 100).2.2.2 (by norm_num)⟩

end MLService

namespace MLService

/-- A successful vectorized pass yields one scalar per input row. -/
theorem runRows_length (g : FeatureRecord → Except String ℚ) :
    ∀ (l : List FeatureRecord) (r : List ℚ),
      runRows g l = Except.ok r → r.length = l.length
  | [], r, h => by
    unfold runRows at h
    cases h
    rfl
  | p :: ps, r, h => by
    unfold runRows at h
    cases hg : g p with
    | error e => rw [hg] at h; cases h
    | ok v =>
      rw [hg] at h
      cases hr : runRows g ps with
      | error e => rw [hr] at h; cases h
      | ok vs =>
        rw [hr] at h
        cases h
        simp [runRows_length g ps vs hr]


theorem mlBatchPass_length (st : MLState) (props : List FeatureRecord)
    (preds : List ℚ) (h : mlBatchPass st props = some preds) :
    preds.length = props.length := by
  obtain ⟨loaded, model⟩ := st
  cases loaded with
  | false => simp [mlBatchPass] at h
  | true =>
    cases model with
    | none => simp [mlBatchPass] at h
    | some g =>
      cases hr : runRows g props with
      | error e => simp [mlBatchPass, hr] at h
      | ok vs =>
        simp [mlBatchPass, hr] at h
        rw [← h]
        exact runRows_length g props vs hr

/-- 1-based ids from `enumerate`. -/
theorem enum_map_fst_ids (l : List FeatureRecord) :
    (l.enum.map fun p => ((p.1 : ℤ) + 1)) =
      (List.range l.length).map (fun i : ℕ => ((i : ℤ) + 1)) := by
  conv_rhs => rw [← List.enum_map_fst l]
  rw [List.map_map]
  rfl

/-- Ditto for the zipped ml branch. -/
theorem enum_map_fst_ids_zip (l : List (FeatureRecord × ℚ)) :
    (l.enum.map fun p => ((p.1 : ℤ) + 1)) =
      (List.range l.length).map (fun i : ℕ => ((i : ℤ) + 1)) := by
  conv_rhs => rw [← List.enum_map_fst l]
  rw [List.map_map]
  rfl

/-- C2: a non-empty batch of N records yields exactly N items with
propertyId sequence 1..N; the vectorized learned pass is all-or-nothing —
when it fails every record is served by the heuristic path, when it
succeeds every item is the learned-path shape. -/
theorem batch_output_shape (year : ℤ) (st : MLState)
    (props : List FeatureRecord) (h1 : 1 ≤ props.length)
    (h2 : props.length ≤ 100) :
    ∃ r, batchPredict year st props = Except.ok r ∧
      r.predictions.length = props.length ∧
      r.predictions.map BatchItem.propertyId =
        (List.range props.length).map (fun i : ℕ => ((i : ℤ) + 1)) ∧
      (mlBatchPass st props = none →
        r.modelUsed = "heuristic" ∧
        r.predictions = props.enum.map fun p =>
          { propertyId := (p.1 : ℤ) + 1, features := p.2,
            prediction := predictHeuristic year p.2 }) ∧
      (∀ preds, mlBatchPass st props = some preds →
        r.modelUsed = "ml_model" ∧
        r.predictions = (props.zip preds).enum.map fun p =>
          { propertyId := (p.1 : ℤ) + 1, features := p.2.1,
            prediction := mlResult p.2.2 }) := by
  have hne : props.isEmpty = false := by
    cases props with
    | nil => simp at h1
    | cons a l => rfl
  cases hml : mlBatchPass st props with
  | none =>
    have hb : batchPredict year st props = Except.ok
        { success := true, modelUsed := "heuristic",
          predictions := props.enum.map fun p =>
            { propertyId := (p.1 : ℤ) + 1, features := p.2,
              prediction := predictHeuristic year p.2 } } := by
      unfold batchPredict
      rw [hml, hne]
      rfl
    refine ⟨_, hb, ?_, ?_, fun _ => ⟨rfl, rfl⟩, fun preds hp => ?_⟩
    · simp
    · rw [List.map_map]
      exact enum_map_fst_ids props
    · cases hp
  | some preds =>
    have hlen : preds.length = props.length := mlBatchPass_length st props preds hml
    have hzl : (props.zip preds).length = props.length := by
      rw [List.length_zip, hlen, min_self]
    have hb : batchPredict year st props = Except.ok
        { success := true, modelUsed := "ml_model",
          predictions := (props.zip preds).enum.map fun p =>
            { propertyId := (p.1 : ℤ) + 1, features := p.2.1,
              prediction := mlResult p.2.2 } } := by
      unfold batchPredict
      rw [hml, hne]
      rfl
    refine ⟨_, hb, ?_, ?_, fun hp => ?_, fun preds2 hp2 => ?_⟩
    · simp [hzl]
    · rw [List.map_map, ← hzl]
      exact enum_map_fst_ids_zip (props.zip preds)
    · cases hp
    · cases hp2
      exact ⟨rfl, rfl⟩

/-- Witness for C2's theorem on a concrete singleton batch. -/
theorem batch_output_shape_witness :
    1 ≤ [recSample].length ∧ [recSample].length ≤ 100 ∧
    ∃ r, batchPredict 2025 stNone [recSample] = Except.ok r ∧
      r.predictions.length = [recSample].length ∧
      r.predictions.map BatchItem.propertyId =
        (List.range [recSample].length).map (fun i : ℕ => ((i : ℤ) + 1)) ∧
      (mlBatchPass stNone [recSample] = none →
        r.modelUsed = "heuristic" ∧
        r.predictions = [recSample].enum.map fun p =>
          { propertyId := (p.1 : ℤ) + 1, features := p.2,
            prediction := predictHeuristic 2025 p.2 }) ∧
      (∀ preds, mlBatchPass stNone [recSample] = some preds →
        r.modelUsed = "ml_model" ∧
        r.predictions = ([recSample].zip preds).enum.map fun p =>
          { propertyId := (p.1 : ℤ) + 1, features := p.2.1,
            prediction := mlResult p.2.2 }) :=
  ⟨by decide, by decide,
    batch_output_shape 2025 stNone [recSample] (by decide) (by decide)⟩

end MLService

namespace MLService

/-- C4: exceptions from the learned-model attempt are absorbed inside
`predict_ml` (which returns `None`), `predict` then falls back to a
successful heuristic result, and `modelUsed = "ml_model"` exactly when
the learned estimate was used. -/
theorem ml_fallback_policy (year : ℤ) (st : MLState) (f : FeatureRecord) :
    ((predict year st f).modelUsed = "ml_model" ↔ (predictML st f).isSome) ∧
    (predictML st f = none →
      predict year st f =
        { success := true, prediction := predictHeuristic year f,
          modelUsed := "heuristic" }) ∧
    (∀ g e, st.model = some g → g f = Except.error e →
      predictML st f = none) := by
  refine ⟨?_, ?_, ?_⟩
  · cases hml : predictML st f with
    | some m => simp [predict, hml]
    | none => simp [predict, hml]
  · intro hml
    simp [predict, hml]
  · intro g e hg he
    obtain ⟨loaded, model⟩ := st
    cases loaded with
    | false => simp [predictML]
    | true =>
      simp only at hg
      subst hg
      simp [predictML, he]

/-- Witness for C4's theorem: an artifact that raises is reported as
unavailability and the caller still gets a heuristic success. -/
theorem ml_fallback_policy_witness :
    stFail.model = some (fun _ => Except.error "shape mismatch") ∧
    predictML stFail recSample = none ∧
    predict 2025 stFail recSample =
      { success := true, prediction := predictHeuristic 2025 recSample,
        modelUsed := "heuristic" } := by
  have h := ml_fallback_policy 2025 stFail recSample
  exact ⟨rfl, h.2.2 _ "shape mismatch" rfl rfl,
    h.2.1 (h.2.2 _ "shape mismatch" rfl rfl)⟩

end MLService

namespace MLService

/-- Prepending the `garage` token to the amenities list does not change
the other-amenities sum (the loop skips it). -/
theorem otherAmenities_cons_garage (l : List String) :
    (if ("garage" :: l).isEmpty then 0
      else ((("garage" :: l).map amenityValue).sum : ℤ)) =
      (if l.isEmpty then 0 else (l.map amenityValue).sum) := by
  cases l with
  | nil => with_unfolding_all decide
  | cons a t =>
    have hg : amenityValue "garage" = 0 := by with_unfolding_all decide
    simp [hg]

theorem otherAmenitiesContrib_garage_amenity (f : FeatureRecord) :
    otherAmenitiesContrib
        { f with garage := some (GarageVal.bool true)
                 garageCap := none
                 amenities := "garage" :: f.amenities } =
      otherAmenitiesContrib
        { f with garage := some (GarageVal.bool true), garageCap := none } := by
  show (if ("garage" :: f.amenities : List String).isEmpty then 0
      else ((("garage" :: f.amenities).map amenityValue).sum : ℤ)) =
    (if f.amenities.isEmpty then 0 else (f.amenities.map amenityValue).sum)
  exact otherAmenities_cons_garage f.amenities

theorem rawPrice_garage_amenity (year : ℤ) (f : FeatureRecord) :
    rawPrice year
        { f with garage := some (GarageVal.bool true)
                 garageCap := none
                 amenities := "garage" :: f.amenities } =
      rawPrice year
        { f with garage := some (GarageVal.bool true), garageCap := none } := by
  unfold rawPrice
  rw [otherAmenitiesContrib_garage_amenity]
  with_unfolding_all rfl

/-- C5: the flat garage contribution (15000) is identical whether garage
is supplied as boolean `true`, as the truthy string `"Yes"`, or as the
amenity token `"garage"`; when the boolean and the amenity are present
simultaneously the contribution is counted exactly once, because the
amenity loop excludes `"garage"` from `otherAmenitiesContribution`. -/
theorem garage_contribution_uniform (year : ℤ) (f : FeatureRecord) :
    (predictHeuristic year
        { f with garage := some (GarageVal.bool true), garageCap := none } =
      predictHeuristic year
        { f with garage := some (GarageVal.str "Yes"), garageCap := none }) ∧
    ((predictHeuristic year
        { f with garage := some (GarageVal.bool true)
                 garageCap := none }).breakdown.map Breakdown.garageContribution =
      some 15000) ∧
    ((predictHeuristic year
        { f with garage := none
                 garageCap := none
                 amenities := "garage" :: f.amenities }).breakdown.map
        Breakdown.garageContribution = some 15000) ∧
    ((predictHeuristic year
        { f with garage := some (GarageVal.bool true)
                 garageCap := none
                 amenities := "garage" :: f.amenities }).estimatedPrice =
      (predictHeuristic year
        { f with garage := some (GarageVal.bool true)
                 garageCap := none }).estimatedPrice) ∧
    ((predictHeuristic year
        { f with garage := some (GarageVal.bool true)
                 garageCap := none
                 amenities := "garage" :: f.amenities }).breakdown.map
        Breakdown.otherAmenitiesContribution =
      (predictHeuristic year
        { f with garage := some (GarageVal.bool true)
                 garageCap := none }).breakdown.map
        Breakdown.otherAmenitiesContribution) := by
  refine ⟨by with_unfolding_all rfl, by with_unfolding_all rfl,
    by with_unfolding_all rfl, ?_, ?_⟩
  · show pyRound (rawPrice year _) = pyRound (rawPrice year _)
    rw [rawPrice_garage_amenity]
  · show some (pyRound ((otherAmenitiesContrib _ : ℤ) : ℚ)) =
      some (pyRound ((otherAmenitiesContrib _ : ℤ) : ℚ))
    rw [otherAmenitiesContrib_garage_amenity]

end MLService

namespace MLService

/-- C6: out-of-vocabulary categorical values never abort the computation:
the heuristic premium/adjustment lookups fall back to 0, and the label
encoder falls back to the default code 0 when the encoder artifact
raises. -/
theorem unknown_category_resolves (year : ℤ) (f : FeatureRecord)
    (enc : String → Except String ℤ) (v : String) (e : String) :
    (locationTable (getLocation f) = none →
      (predictHeuristic year f).breakdown.map Breakdown.locationPremium =
        some 0) ∧
    (conditionTable (getCondition f) = none →
      (predictHeuristic year f).breakdown.map Breakdown.conditionAdjustment =
        some 0) ∧
    (enc v = Except.error e → encodeColumn enc v = 0) := by
  refine ⟨?_, ?_, ?_⟩
  · intro h
    show some (locationPremium f) = some 0
    unfold locationPremium
    rw [h]
    rfl
  · intro h
    show some (conditionAdjustment f) = some 0
    unfold conditionAdjustment
    rw [h]
    rfl
  · intro h
    unfold encodeColumn
    rw [h]

/-- Witness for C6's theorem at location "Mars" / condition "Shiny" and a
raising encoder. -/
theorem unknown_category_resolves_witness :
    locationTable (getLocation recMars) = none ∧
    conditionTable (getCondition recMars) = none ∧
    encFail "Mars" = Except.error "unseen label" ∧
    (predictHeuristic 2025 recMars).breakdown.map Breakdown.locationPremium =
      some 0 ∧
    (predictHeuristic 2025 recMars).breakdown.map
      Breakdown.conditionAdjustment = some 0 ∧
    encodeColumn encFail "Mars" = 0 := by
  have h := unknown_category_resolves 2025 recMars encFail "Mars" "unseen label"
  exact ⟨by with_unfolding_all decide, by with_unfolding_all decide, rfl,
    h.1 (by with_unfolding_all decide), h.2.1 (by with_unfolding_all decide),
    h.2.2 rfl⟩

theorem rawPrice_eq_sansLoc (year : ℤ) (f : FeatureRecord) :
    rawPrice year f = rawPriceSansLoc year f + (locationPremium f : ℚ) := by
  unfold rawPrice rawPriceSansLoc
  ring

theorem rawPrice_eq_sansCond (year : ℤ) (f : FeatureRecord) :
    rawPrice year f = rawPriceSansCond year f + (conditionAdjustment f : ℚ) := by
  unfold rawPrice rawPriceSansCond
  ring

/-- Adding an even integer to the raw price shifts the rounded estimate
by exactly that amount. -/
theorem est_shift (year : ℤ) (f1 f2 : FeatureRecord) (n : ℤ)
    (hn : n % 2 = 0)
    (h : rawPrice year f1 = rawPrice year f2 + (n : ℚ)) :
    (predictHeuristic year f1).estimatedPrice =
      (predictHeuristic year f2).estimatedPrice + n := by
  show pyRound (rawPrice year f1) = pyRound (rawPrice year f2) + n
  rw [h]
  exact pyRound_add_even _ _ hn

/-- Premium lookup after a location update, reduced to the lowercased
literal. -/
theorem locationPremium_update (f : FeatureRecord) (s t : String)
    (hne : s ≠ "") (hlow : s.toLower = t) :
    locationPremium { f with location := some s } = (locationTable t).getD 0 := by
  show (locationTable ((strOr (some s) f.locationCap "").toLower)).getD 0 = _
  rw [show strOr (some s) f.locationCap "" =
      if s = "" then f.locationCap.getD "" else s from rfl, if_neg hne, hlow]

/-- Adjustment lookup after a condition update. -/
theorem conditionAdjustment_update (f : FeatureRecord) (s t : String)
    (hne : s ≠ "") (hlow : s.toLower = t) :
    conditionAdjustment { f with condition := some s } =
      (conditionTable t).getD 0 := by
  show (conditionTable ((strOr (some s) f.conditionCap "").toLower)).getD 0 = _
  rw [show strOr (some s) f.conditionCap "" =
      if s = "" then f.conditionCap.getD "" else s from rfl, if_neg hne, hlow]

/-- C7: holding all other fields equal, the heuristic estimate is
monotone in location (Urban ≥ Suburban ≥ Rural) and strictly monotone in
condition (Excellent > Good > Fair > Poor). -/
theorem heuristic_monotonicity (year : ℤ) (f : FeatureRecord) :
    ((predictHeuristic year { f with location := some "Rural" }).estimatedPrice ≤
        (predictHeuristic year { f with location := some "Suburban" }).estimatedPrice ∧
      (predictHeuristic year { f with location := some "Suburban" }).estimatedPrice ≤
        (predictHeuristic year { f with location := some "Urban" }).estimatedPrice) ∧
    ((predictHeuristic year { f with condition := some "Poor" }).estimatedPrice <
        (predictHeuristic year { f with condition := some "Fair" }).estimatedPrice ∧
      (predictHeuristic year { f with condition := some "Fair" }).estimatedPrice <
        (predictHeuristic year { f with condition := some "Good" }).estimatedPrice ∧
      (predictHeuristic year { f with condition := some "Good" }).estimatedPrice <
        (predictHeuristic year { f with condition := some "Excellent" }).estimatedPrice) := by
  have pR : locationPremium { f with location := some "Rural" } = 10000 := by
    rw [locationPremium_update f "Rural" "rural" (by decide)
      (by with_unfolding_all decide)]
    with_unfolding_all decide
  have pS : locationPremium { f with location := some "Suburban" } = 30000 := by
    rw [locationPremium_update f "Suburban" "suburban" (by decide)
      (by with_unfolding_all decide)]
    with_unfolding_all decide
  have pU : locationPremium { f with location := some "Urban" } = 50000 := by
    rw [locationPremium_update f "Urban" "urban" (by decide)
      (by with_unfolding_all decide)]
    with_unfolding_all decide
  have cP : conditionAdjustment { f with condition := some "Poor" } = -20000 := by
    rw [conditionAdjustment_update f "Poor" "poor" (by decide)
      (by with_unfolding_all decide)]
    with_unfolding_all decide
  have cF : conditionAdjustment { f with condition := some "Fair" } = 0 := by
    rw [conditionAdjustment_update f "Fair" "fair" (by decide)
      (by with_unfolding_all decide)]
    with_unfolding_all decide
  have cG : conditionAdjustment { f with condition := some "Good" } = 20000 := by
    rw [conditionAdjustment_update f "Good" "good" (by decide)
      (by with_unfolding_all decide)]
    with_unfolding_all decide
  have cE : conditionAdjustment { f with condition := some "Excellent" } = 40000 := by
    rw [conditionAdjustment_update f "Excellent" "excellent" (by decide)
      (by with_unfolding_all decide)]
    with_unfolding_all decide
  have hSR : rawPrice year { f with location := some "Suburban" } =
      rawPrice year { f with location := some "Rural" } + ((20000 : ℤ) : ℚ) := by
    rw [rawPrice_eq_sansLoc year { f with location := some "Suburban" },
      rawPrice_eq_sansLoc year { f with location := some "Rural" },
      show rawPriceSansLoc year { f with location := some "Suburban" } =
        rawPriceSansLoc year { f with location := some "Rural" } from rfl,
      pS, pR]
    push_cast
    ring
  have hUS : rawPrice year { f with location := some "Urban" } =
      rawPrice year { f with location := some "Suburban" } + ((20000 : ℤ) : ℚ) := by
    rw [rawPrice_eq_sansLoc year { f with location := some "Urban" },
      rawPrice_eq_sansLoc year { f with location := some "Suburban" },
      show rawPriceSansLoc year { f with location := some "Urban" } =
        rawPriceSansLoc year { f with location := some "Suburban" } from rfl,
      pU, pS]
    push_cast
    ring
  have hFP : rawPrice year { f with condition := some "Fair" } =
      rawPrice year { f with condition := some "Poor" } + ((20000 : ℤ) : ℚ) := by
    rw [rawPrice_eq_sansCond year { f with condition := some "Fair" },
      rawPrice_eq_sansCond year { f with condition := some "Poor" },
      show rawPriceSansCond year { f with condition := some "Fair" } =
        rawPriceSansCond year { f with condition := some "Poor" } from rfl,
      cF, cP]
    push_cast
    ring
  have hGF : rawPrice year { f with condition := some "Good" } =
      rawPrice year { f with condition := some "Fair" } + ((20000 : ℤ) : ℚ) := by
    rw [rawPrice_eq_sansCond year { f with condition := some "Good" },
      rawPrice_eq_sansCond year { f with condition := some "Fair" },
      show rawPriceSansCond year { f with condition := some "Good" } =
        rawPriceSansCond year { f with condition := some "Fair" } from rfl,
      cG, cF]
    push_cast
    ring
  have hEG : rawPrice year { f with condition := some "Excellent" } =
      rawPrice year { f with condition := some "Good" } + ((20000 : ℤ) : ℚ) := by
    rw [rawPrice_eq_sansCond year { f with condition := some "Excellent" },
      rawPrice_eq_sansCond year { f with condition := some "Good" },
      show rawPriceSansCond year { f with condition := some "Excellent" } =
        rawPriceSansCond year { f with condition := some "Good" } from rfl,
      cE, cG]
    push_cast
    ring
  have e1 := est_shift year { f with location := some "Suburban" }
    { f with location := some "Rural" } 20000 (by decide) hSR
  have e2 := est_shift year { f with location := some "Urban" }
    { f with location := some "Suburban" } 20000 (by decide) hUS
  have e3 := est_shift year { f with condition := some "Fair" }
    { f with condition := some "Poor" } 20000 (by decide) hFP
  have e4 := est_shift year { f with condition := some "Good" }
    { f with condition := some "Fair" } 20000 (by decide) hGF
  have e5 := est_shift year { f with condition := some "Excellent" }
    { f with condition := some "Good" } 20000 (by decide) hEG
  refine ⟨⟨?_, ?_⟩, ?_, ?_, ?_⟩ <;> omega

end MLService

namespace MLService

/-- C8 counterexample: `predict_heuristic` reads `datetime.now().year`,
so for a record supplying `yearBuilt` two invocations in different
calendar years return different results — the estimate is not a pure
function of the record and the coefficient table alone. -/
theorem heuristic_depends_on_clock :
    predictHeuristic 2024 recYearBuilt ≠ predictHeuristic 2025 recYearBuilt := by
  with_unfolding_all decide

/-- C8 (amended): the heuristic estimate is a deterministic pure function
of the input record, the fixed coefficient table *and the current
calendar year*; whenever the record resolves no usable (non-zero)
`yearBuilt`, the result is independent of the clock as well. -/
theorem heuristic_pure_given_year (y1 y2 : ℤ) (f : FeatureRecord)
    (h : getYearBuilt f = none ∨ getYearBuilt f = some 0) :
    predictHeuristic y1 f = predictHeuristic y2 f := by
  have hage : ageOf y1 f = ageOf y2 f := by
    unfold ageOf
    rcases h with h | h <;> (rw [h]; try rfl)
  have hadj : ageAdjustment y1 f = ageAdjustment y2 f := by
    unfold ageAdjustment
    rw [hage]
  have hraw : rawPrice y1 f = rawPrice y2 f := by
    unfold rawPrice
    rw [hadj]
  unfold predictHeuristic
  rw [hraw, hadj]

/-- Witness for C8's amended theorem at a record without `yearBuilt`. -/
theorem heuristic_pure_given_year_witness :
    (getYearBuilt recPool = none ∨ getYearBuilt recPool = some 0) ∧
    predictHeuristic 2024 recPool = predictHeuristic 2030 recPool :=
  ⟨Or.inl (by decide),
    heuristic_pure_given_year 2024 2030 recPool (Or.inl (by decide))⟩

/-- C9 counterexample: duplicating the amenity `"pool"` adds its value a
second time, changing both `otherAmenitiesContribution` and the
estimated price — the heuristic does *not* treat amenities as a set. -/
theorem amenity_duplication_changes_price :
    (predictHeuristic 2025 recPoolTwice).estimatedPrice ≠
        (predictHeuristic 2025 recPool).estimatedPrice ∧
      (predictHeuristic 2025 recPoolTwice).breakdown.map
          Breakdown.otherAmenitiesContribution ≠
        (predictHeuristic 2025 recPool).breakdown.map
          Breakdown.otherAmenitiesContribution := by
  with_unfolding_all decide

/-- A permutation preserves `any`. -/
theorem perm_any (l1 l2 : List String) (h : l1.Perm l2)
    (p : String → Bool) : l1.any p = l2.any p := by
  cases hb : l2.any p with
  | true =>
    rcases List.any_eq_true.mp hb with ⟨x, hx, hpx⟩
    exact List.any_eq_true.mpr ⟨x, h.symm.subset hx, hpx⟩
  | false =>
    cases ha : l1.any p with
    | false => rfl
    | true =>
      rcases List.any_eq_true.mp ha with ⟨x, hx, hpx⟩
      rw [← hb]
      exact (List.any_eq_true.mpr ⟨x, h.subset hx, hpx⟩).symm

/-- A permutation preserves emptiness. -/
theorem perm_isEmpty (l1 l2 : List String) (h : l1.Perm l2) :
    l1.isEmpty = l2.isEmpty := by
  cases l1 with
  | nil =>
    rw [h.nil_eq]
  | cons a t =>
    cases l2 with
    | nil => exact absurd h.symm.nil_eq (by simp)
    | cons b s => rfl

/-- C9 (amended): the heuristic estimate depends on the amenities field
only as a *multiset*: permuting the list leaves the whole result
unchanged (duplicating a priced entry, however, counts it again — see
the counterexample). -/
theorem heuristic_amenities_perm_invariant (year : ℤ) (f : FeatureRecord)
    (l2 : List String) (h : f.amenities.Perm l2) :
    predictHeuristic year { f with amenities := l2 } =
      predictHeuristic year f := by
  have hany : (l2.any fun a => a.toLower = "garage") =
      (f.amenities.any fun a => a.toLower = "garage") :=
    (perm_any f.amenities l2 h _).symm
  have hempty : l2.isEmpty = f.amenities.isEmpty :=
    (perm_isEmpty f.amenities l2 h).symm
  have hsum : (l2.map amenityValue).sum = (f.amenities.map amenityValue).sum :=
    ((h.map amenityValue).sum_eq).symm
  have hgar : hasGarage { f with amenities := l2 } = hasGarage f := by
    show (if !hasGarageField f && !l2.isEmpty then
        l2.any fun a => a.toLower = "garage"
      else hasGarageField f) =
      (if !hasGarageField f && !f.amenities.isEmpty then
        f.amenities.any fun a => a.toLower = "garage"
      else hasGarageField f)
    rw [hempty, hany]
  have hother : otherAmenitiesContrib { f with amenities := l2 } =
      otherAmenitiesContrib f := by
    show (if l2.isEmpty then 0 else ((l2.map amenityValue).sum : ℤ)) =
      (if f.amenities.isEmpty then 0 else (f.amenities.map amenityValue).sum)
    rw [hempty, hsum]
  have hgarc : garageContribution { f with amenities := l2 } =
      garageContribution f := by
    unfold garageContribution
    rw [hgar]
  have hraw : rawPrice year { f with amenities := l2 } = rawPrice year f := by
    unfold rawPrice
    rw [hgarc, hother]
    rfl
  unfold predictHeuristic
  rw [hraw, hgarc, hother]
  rfl

/-- Witness for C9's amended theorem at a concrete permutation. -/
theorem heuristic_amenities_perm_invariant_witness :
    ((["pool", "garden"] : List String).Perm ["garden", "pool"]) ∧
    predictHeuristic 2025
        { area := some 100, amenities := ["garden", "pool"] } =
      predictHeuristic 2025
        { area := some 100, amenities := ["pool", "garden"] } :=
  ⟨by decide,
    heuristic_amenities_perm_invariant 2025
      { area := some 100, amenities := ["pool", "garden"] }
      ["garden", "pool"] (by decide)⟩

/-- C10 counterexample: with `yearBuilt = 0` (present) and `age = 5`, the
estimator uses the explicit age (Python truthiness: `if year_built:`
treats 0 as absent), not `currentYear − yearBuilt`. -/
theorem explicit_age_used_despite_yearBuilt :
    recYearBuiltZero.yearBuilt = some 0 ∧ recYearBuiltZero.age = some 5 ∧
    ageOf 2025 recYearBuiltZero = 5 ∧ (2025 - 0 : ℤ) ≠ 5 := by
  refine ⟨rfl, rfl, by decide, by decide⟩

/-- C10 (amended): when the record resolves a *non-zero* `yearBuilt`,
the explicit age field is ignored and age = currentYear − yearBuilt;
the explicit age field is used exactly when the resolved `yearBuilt` is
absent or zero (Python truthiness). -/
theorem age_resolution (year : ℤ) (f : FeatureRecord) :
    (∀ yb, getYearBuilt f = some yb → yb ≠ 0 → ageOf year f = year - yb) ∧
    (getYearBuilt f = none ∨ getYearBuilt f = some 0 →
      ageOf year f = f.age.getD 0) := by
  constructor
  · intro yb h hne
    unfold ageOf
    rw [h]
    show (if yb = 0 then f.age.getD 0 else year - yb) = year - yb
    rw [if_neg hne]
  · intro h
    unfold ageOf
    rcases h with h | h <;> (rw [h]; try simp)

/-- Witness for C10's amended theorem. -/
theorem age_resolution_witness :
    getYearBuilt recYearBuilt = some 2020 ∧ (2020 : ℤ) ≠ 0 ∧
    ageOf 2025 recYearBuilt = 2025 - 2020 ∧
    (getYearBuilt recPoolTwice = none ∨ getYearBuilt recPoolTwice = some 0) ∧
    ageOf 2025 recPoolTwice = recPoolTwice.age.getD 0 := by
  have h1 := age_resolution 2025 recYearBuilt
  have h2 := age_resolution 2025 recPoolTwice
  exact ⟨by decide, by decide, h1.1 2020 (by decide) (by decide),
    Or.inl (by decide), h2.2 (Or.inl (by decide))⟩

end MLService
